import Mathlib

/-!
Verification of the synthetic energy-curve generator of `Inicio.py`
(`generar_datos_energia`, lines 160-211) and the derived summary
statistics (mean / efficiency computation, lines 622-633).

The Python code works on floating-point numpy arrays; we embed it over an
arbitrary linear ordered field `α`, passing the sine function `sinf` and
the constant `pi` as parameters.  The claim theorems instantiate
`α := ℝ`, `sinf := Real.sin`, `pi := Real.pi`; witnesses evaluate the
rational parts (lookups, boundary values) concretely.

Python runtime errors are made explicit: the dictionary lookup
`parametros[centro]` raises `KeyError` on an unknown machine, and the
boundary assignment `frente_a_abt[0] = ...` raises `IndexError` when the
array is empty (which happens exactly when `numero_periodos <= 0`, since
`np.arange(1, n + 1)` is then empty).
-/

namespace Inicio

/-- The per-machine parameter record (`parametros[...]` values,
`Inicio.py` lines 165-187). -/
structure Params (α : Type) where
  base : α
  amplitud1 : α
  amplitud2 : α
  fase1 : α
  fase2 : α

/-- The static machine table `parametros` (`Inicio.py` lines 165-187);
`none` models the `KeyError` of a failed dictionary lookup. -/
def parametros {α : Type} [Field α] (pi : α) (centro : String) : Option (Params α) :=
  if centro = "H75" then
    some ⟨180, 35, 25, 0, pi⟩
  else if centro = "Extrusora LEISTRITZ ZSE-27" then
    some ⟨220, 50, 40, pi / 4, -(pi / 4)⟩
  else if centro = "Inyectora ENGEL e-motion 310" then
    some ⟨160, 30, 20, pi / 2, -(pi / 2)⟩
  else
    none

/-- The period-to-scale-factor dictionary with its permissive default:
`factor_periodo.get(periodo, 1)` (`Inicio.py` lines 192-198). -/
def factor_periodo {α : Type} [Field α] (periodo : String) : α :=
  if periodo = "Día" then 1 / 7
  else if periodo = "Semana" then 1
  else if periodo = "Mes" then 4.33
  else 1

/-- The Python runtime errors `generar_datos_energia` can raise:
`keyError` from the machine-table lookup (line 189), `indexError` from
the boundary assignment on an empty array (line 208). -/
inductive PyError where
  | keyError
  | indexError
  deriving DecidableEq

/-- The boundary overwrite `a[0] = a[-1] = v` on a numpy array
(`Inicio.py` lines 208-209): overwrite the first and the last position. -/
def setFirstLast {α : Type} (xs : List α) (v : α) : List α :=
  (xs.set 0 v).set (xs.length - 1) v

/-- The index array `tiempo = np.arange(1, numero_periodos + 1)`
(`Inicio.py` line 162): the integers `1, ..., n`, empty when `n ≤ 0`. -/
def tiempo (n : ℤ) : List ℤ :=
  (List.range' 1 n.toNat).map (fun k : ℕ => (k : ℤ))

/-- Shallow embedding of `generar_datos_energia(centro, periodo,
numero_periodos)` (`Inicio.py` lines 160-211).  `tiempo` is
`np.arange(1, n + 1)`; the two curves are the elementwise sinusoids of
lines 204-205; the boundary overwrite of lines 208-209 raises
`IndexError` when the arrays are empty. -/
def generar_datos_energia {α : Type} [Field α] (sinf : α → α) (pi : α)
    (centro periodo : String) (numero_periodos : ℤ) :
    Except PyError (List ℤ × List α × List α) :=
  let tiempo : List ℤ := tiempo numero_periodos
  match parametros pi centro with
  | none => .error .keyError
  | some params =>
    let factor : α := factor_periodo periodo
    let base_ajustada := params.base * factor
    let amp1_ajustada := params.amplitud1 * factor
    let amp2_ajustada := params.amplitud2 * factor
    let frente_a_abt := tiempo.map (fun t : ℤ =>
      base_ajustada + amp1_ajustada *
        sinf (2 * pi * (t : α) / (numero_periodos : α) + params.fase1))
    let frente_a_linea_base := tiempo.map (fun t : ℤ =>
      base_ajustada - amp2_ajustada *
        sinf (2 * pi * (t : α) / (numero_periodos : α) + params.fase2))
    if tiempo.isEmpty then
      .error .indexError
    else
      .ok (tiempo, setFirstLast frente_a_abt base_ajustada,
           setFirstLast frente_a_linea_base base_ajustada)

/-- The arithmetic mean `np.mean` of a list. -/
def mean {α : Type} [Field α] (xs : List α) : α :=
  xs.sum / (xs.length : α)

/-- The derived summary statistics of a curve pair. -/
structure Summary (α : Type) where
  mean_theoretical : α
  mean_actual : α
  efficiency_pct : α

/-- The statistics computed per machine in `todas_maquinas`
(`Inicio.py` lines 628-633):
`eficiencia = (1 - abs(np.mean(real) - np.mean(teorico)) / np.mean(teorico)) * 100`. -/
def summarize {α : Type} [LinearOrderedField α] (teorico real : List α) : Summary α :=
  { mean_theoretical := mean teorico
    mean_actual := mean real
    efficiency_pct := (1 - |mean real - mean teorico| / mean teorico) * 100 }

theorem length_setFirstLast {α : Type} (xs : List α) (v : α) :
    (setFirstLast xs v).length = xs.length := by
  simp [setFirstLast]

theorem head?_setFirstLast {α : Type} (xs : List α) (v : α) (h : xs ≠ []) :
    (setFirstLast xs v).head? = some v := by
  rw [setFirstLast, List.head?_eq_getElem?]
  rcases eq_or_ne (xs.length - 1) 0 with h0 | h0
  · rw [h0]
    exact List.getElem?_set_self (by simpa using List.length_pos.mpr h)
  · rw [List.getElem?_set_ne h0]
    exact List.getElem?_set_self (List.length_pos.mpr h)

theorem getLast?_setFirstLast {α : Type} (xs : List α) (v : α) (h : xs ≠ []) :
    (setFirstLast xs v).getLast? = some v := by
  rw [setFirstLast, List.getLast?_eq_getElem?]
  simp only [List.length_set]
  exact List.getElem?_set_self
    (by simp only [List.length_set]; exact Nat.sub_lt (List.length_pos.mpr h) one_pos)

theorem getElem?_setFirstLast {α : Type} (xs : List α) (v : α) (i : ℕ)
    (h0 : i ≠ 0) (h1 : i ≠ xs.length - 1) :
    (setFirstLast xs v)[i]? = xs[i]? := by
  rw [setFirstLast, List.getElem?_set_ne (Ne.symm h1), List.getElem?_set_ne (Ne.symm h0)]

theorem mem_setFirstLast {α : Type} {xs : List α} {v x : α}
    (h : x ∈ setFirstLast xs v) : x ∈ xs ∨ x = v := by
  rcases List.mem_or_eq_of_mem_set h with h' | h'
  · rcases List.mem_or_eq_of_mem_set h' with h'' | h''
    · exact Or.inl h''
    · exact Or.inr h''
  · exact Or.inr h'

theorem generar_eq_ok {α : Type} [Field α] (sinf : α → α) (pi : α)
    {centro : String} (periodo : String) {p : Params α} {n : ℤ}
    (hc : parametros pi centro = some p) (hn : 1 ≤ n) :
    generar_datos_energia sinf pi centro periodo n =
      .ok (tiempo n,
        setFirstLast ((tiempo n).map (fun t : ℤ =>
          p.base * factor_periodo periodo + p.amplitud1 * factor_periodo periodo *
            sinf (2 * pi * (t : α) / (n : α) + p.fase1)))
          (p.base * factor_periodo periodo),
        setFirstLast ((tiempo n).map (fun t : ℤ =>
          p.base * factor_periodo periodo - p.amplitud2 * factor_periodo periodo *
            sinf (2 * pi * (t : α) / (n : α) + p.fase2)))
          (p.base * factor_periodo periodo)) := by
  have hne : (tiempo n).isEmpty = false := by
    rw [List.isEmpty_eq_false]
    intro hnil
    have hlen := congrArg List.length hnil
    simp only [tiempo, List.length_map, List.length_range', List.length_nil] at hlen
    omega
  simp only [generar_datos_energia, hc, hne]
  rfl

theorem length_tiempo (n : ℤ) : (tiempo n).length = n.toNat := by
  simp [tiempo]

theorem tiempo_ne_nil {n : ℤ} (hn : 1 ≤ n) : tiempo n ≠ [] := by
  intro hnil
  have hlen := congrArg List.length hnil
  simp only [tiempo, List.length_map, List.length_range', List.length_nil] at hlen
  omega

theorem map_tiempo_ne_nil {β : Type} (f : ℤ → β) {n : ℤ} (hn : 1 ≤ n) :
    (tiempo n).map f ≠ [] := by
  intro hnil
  exact tiempo_ne_nil hn (List.map_eq_nil_iff.mp hnil)

theorem getElem?_tiempo {n : ℤ} {i : ℕ} (hi : i < n.toNat) :
    (tiempo n)[i]? = some ((i : ℤ) + 1) := by
  rw [tiempo, List.getElem?_map, List.getElem?_range' 1 1 hi]
  simp
  omega

/-- C1: for every known machine, every period and every `point_count ≥ 1`,
the generated theoretical and actual curves both start and end at the
scaled baseline `base * factor_periodo periodo`. -/
theorem boundary_closure (centro periodo : String) (p : Params ℝ) (n : ℤ)
    (hc : parametros Real.pi centro = some p) (hn : 1 ≤ n) :
    ∃ t teorico real,
      generar_datos_energia Real.sin Real.pi centro periodo n = .ok (t, teorico, real) ∧
      teorico.head? = some (p.base * factor_periodo periodo) ∧
      teorico.getLast? = some (p.base * factor_periodo periodo) ∧
      real.head? = some (p.base * factor_periodo periodo) ∧
      real.getLast? = some (p.base * factor_periodo periodo) := by
  refine ⟨_, _, _, generar_eq_ok Real.sin Real.pi periodo hc hn, ?_, ?_, ?_, ?_⟩
  · exact head?_setFirstLast _ _ (map_tiempo_ne_nil _ hn)
  · exact getLast?_setFirstLast _ _ (map_tiempo_ne_nil _ hn)
  · exact head?_setFirstLast _ _ (map_tiempo_ne_nil _ hn)
  · exact getLast?_setFirstLast _ _ (map_tiempo_ne_nil _ hn)

theorem boundary_closure_witness :
    parametros Real.pi "H75" = some (⟨180, 35, 25, 0, Real.pi⟩ : Params ℝ) ∧
    (1 : ℤ) ≤ 24 ∧
    (∃ t teorico real,
      generar_datos_energia Real.sin Real.pi "H75" "Semana" 24 = .ok (t, teorico, real) ∧
      teorico.head? = some ((180 : ℝ) * factor_periodo "Semana") ∧
      teorico.getLast? = some ((180 : ℝ) * factor_periodo "Semana") ∧
      real.head? = some ((180 : ℝ) * factor_periodo "Semana") ∧
      real.getLast? = some ((180 : ℝ) * factor_periodo "Semana")) :=
  ⟨by simp [parametros], by decide,
   boundary_closure "H75" "Semana" ⟨180, 35, 25, 0, Real.pi⟩ 24 (by simp [parametros])
     (by decide)⟩

/-- C3: for every known machine, every period and every `point_count ≥ 1`,
the returned time indices are the consecutive integers `1, ..., point_count`
and all three returned sequences have length exactly `point_count`. -/
theorem index_sequence_and_lengths (centro periodo : String) (p : Params ℝ) (n : ℤ)
    (hc : parametros Real.pi centro = some p) (hn : 1 ≤ n) :
    ∃ t teorico real,
      generar_datos_energia Real.sin Real.pi centro periodo n = .ok (t, teorico, real) ∧
      t.length = n.toNat ∧ teorico.length = n.toNat ∧ real.length = n.toNat ∧
      ∀ i : ℕ, i < n.toNat → t[i]? = some ((i : ℤ) + 1) := by
  refine ⟨_, _, _, generar_eq_ok Real.sin Real.pi periodo hc hn,
    length_tiempo n, ?_, ?_, fun i hi => getElem?_tiempo hi⟩
  · rw [length_setFirstLast, List.length_map, length_tiempo]
  · rw [length_setFirstLast, List.length_map, length_tiempo]

theorem index_sequence_and_lengths_witness :
    parametros Real.pi "H75" = some (⟨180, 35, 25, 0, Real.pi⟩ : Params ℝ) ∧
    (1 : ℤ) ≤ 24 ∧
    (∃ t teorico real,
      generar_datos_energia Real.sin Real.pi "H75" "Semana" 24 = .ok (t, teorico, real) ∧
      t.length = (24 : ℤ).toNat ∧ teorico.length = (24 : ℤ).toNat ∧
      real.length = (24 : ℤ).toNat ∧
      ∀ i : ℕ, i < (24 : ℤ).toNat → t[i]? = some ((i : ℤ) + 1)) :=
  ⟨by simp [parametros], by decide,
   index_sequence_and_lengths "H75" "Semana" ⟨180, 35, 25, 0, Real.pi⟩ 24
     (by simp [parametros]) (by decide)⟩

/-- C4: for every machine identifier other than the three registered ones,
generation fails with the machine-lookup error (`KeyError` on the
`parametros` dictionary), whatever the period and the point count. -/
theorem unknown_machine_error (centro periodo : String) (n : ℤ)
    (h1 : centro ≠ "H75") (h2 : centro ≠ "Extrusora LEISTRITZ ZSE-27")
    (h3 : centro ≠ "Inyectora ENGEL e-motion 310") :
    generar_datos_energia Real.sin Real.pi centro periodo n = .error .keyError := by
  have hc : parametros Real.pi centro = (none : Option (Params ℝ)) := by
    simp [parametros, h1, h2, h3]
  simp only [generar_datos_energia, hc]

theorem unknown_machine_error_witness :
    ("UnknownMachine" : String) ≠ "H75" ∧
    ("UnknownMachine" : String) ≠ "Extrusora LEISTRITZ ZSE-27" ∧
    ("UnknownMachine" : String) ≠ "Inyectora ENGEL e-motion 310" ∧
    generar_datos_energia Real.sin Real.pi "UnknownMachine" "Semana" 24 =
      .error .keyError :=
  ⟨by decide, by decide, by decide,
   unknown_machine_error "UnknownMachine" "Semana" 24 (by decide) (by decide) (by decide)⟩

/-- C2: for every known machine, every period and every `point_count ≥ 3`,
at every interior index `i` (neither first nor last) the theoretical value
is `scaled_base + scaled_amp1 * sin(2π·t_i/point_count + fase1)` and the
actual value is `scaled_base - scaled_amp2 * sin(2π·t_i/point_count + fase2)`,
where `t_i = i + 1` and the scaled quantities are the profile values times
the period factor. -/
theorem interior_formula (centro periodo : String) (p : Params ℝ) (n : ℤ) (i : ℕ)
    (hc : parametros Real.pi centro = some p) (hn : 3 ≤ n)
    (hi0 : 1 ≤ i) (hi1 : (i : ℤ) < n - 1) :
    ∃ t teorico real,
      generar_datos_energia Real.sin Real.pi centro periodo n = .ok (t, teorico, real) ∧
      teorico[i]? = some (p.base * factor_periodo periodo +
        p.amplitud1 * factor_periodo periodo *
          Real.sin (2 * Real.pi * ((i : ℝ) + 1) / (n : ℝ) + p.fase1)) ∧
      real[i]? = some (p.base * factor_periodo periodo -
        p.amplitud2 * factor_periodo periodo *
          Real.sin (2 * Real.pi * ((i : ℝ) + 1) / (n : ℝ) + p.fase2)) := by
  refine ⟨_, _, _, generar_eq_ok Real.sin Real.pi periodo hc (by omega), ?_, ?_⟩
  · rw [getElem?_setFirstLast _ _ _ (by omega)
      (by rw [List.length_map, length_tiempo]; omega)]
    rw [List.getElem?_map, getElem?_tiempo (by omega)]
    simp only [Option.map_some']
    congr 3
    push_cast
    ring
  · rw [getElem?_setFirstLast _ _ _ (by omega)
      (by rw [List.length_map, length_tiempo]; omega)]
    rw [List.getElem?_map, getElem?_tiempo (by omega)]
    simp only [Option.map_some']
    congr 3
    push_cast
    ring

theorem interior_formula_witness :
    parametros Real.pi "H75" = some (⟨180, 35, 25, 0, Real.pi⟩ : Params ℝ) ∧
    (3 : ℤ) ≤ 24 ∧ 1 ≤ 5 ∧ ((5 : ℕ) : ℤ) < 24 - 1 ∧
    (∃ t teorico real,
      generar_datos_energia Real.sin Real.pi "H75" "Semana" 24 = .ok (t, teorico, real) ∧
      teorico[5]? = some ((180 : ℝ) * factor_periodo "Semana" +
        (35 : ℝ) * factor_periodo "Semana" *
          Real.sin (2 * Real.pi * (((5 : ℕ) : ℝ) + 1) / ((24 : ℤ) : ℝ) + 0)) ∧
      real[5]? = some ((180 : ℝ) * factor_periodo "Semana" -
        (25 : ℝ) * factor_periodo "Semana" *
          Real.sin (2 * Real.pi * (((5 : ℕ) : ℝ) + 1) / ((24 : ℤ) : ℝ) + Real.pi))) :=
  ⟨by simp [parametros], by decide, by decide, by decide,
   interior_formula "H75" "Semana" ⟨180, 35, 25, 0, Real.pi⟩ 24 5 (by simp [parametros])
     (by decide) (by decide) (by decide)⟩

/-- C6: the period lookup maps `Día` to `1/7`, `Semana` to `1`, `Mes`
to `4.33`, and every other period to the permissive default `1`; hence
generation with an unrecognized period coincides with the `Semana`
series for the same machine and point count. -/
theorem period_factor_map :
    (factor_periodo "Día" : ℝ) = 1 / 7 ∧
    (factor_periodo "Semana" : ℝ) = 1 ∧
    (factor_periodo "Mes" : ℝ) = 4.33 ∧
    (∀ periodo : String, periodo ≠ "Día" → periodo ≠ "Semana" → periodo ≠ "Mes" →
      (factor_periodo periodo : ℝ) = 1) ∧
    (∀ centro periodo : String, ∀ n : ℤ,
      periodo ≠ "Día" → periodo ≠ "Semana" → periodo ≠ "Mes" →
      generar_datos_energia Real.sin Real.pi centro periodo n =
        generar_datos_energia Real.sin Real.pi centro "Semana" n) := by
  refine ⟨by simp [factor_periodo], by simp [factor_periodo],
    by simp [factor_periodo], ?_, ?_⟩
  · intro periodo h1 h2 h3
    simp [factor_periodo, h1, h2, h3]
  · intro centro periodo n h1 h2 h3
    have hf : (factor_periodo periodo : ℝ) = factor_periodo "Semana" := by
      simp [factor_periodo, h1, h2, h3]
    simp only [generar_datos_energia, hf]

theorem period_factor_map_witness :
    ("Trimestre" : String) ≠ "Día" ∧ ("Trimestre" : String) ≠ "Semana" ∧
    ("Trimestre" : String) ≠ "Mes" ∧
    (factor_periodo "Trimestre" : ℝ) = 1 ∧
    generar_datos_energia Real.sin Real.pi "H75" "Trimestre" 24 =
      generar_datos_energia Real.sin Real.pi "H75" "Semana" 24 :=
  ⟨by decide, by decide, by decide,
   period_factor_map.2.2.2.1 "Trimestre" (by decide) (by decide) (by decide),
   period_factor_map.2.2.2.2 "H75" "Trimestre" 24 (by decide) (by decide) (by decide)⟩

/-- C7: generation is deterministic — two calls with identical inputs
return identical results.  Side-effect freedom is captured by the
embedding itself: `generar_datos_energia` is a pure function of its
arguments. -/
theorem generate_deterministic (centro periodo : String) (n : ℤ)
    (r₁ r₂ : Except PyError (List ℤ × List ℝ × List ℝ))
    (h₁ : generar_datos_energia Real.sin Real.pi centro periodo n = r₁)
    (h₂ : generar_datos_energia Real.sin Real.pi centro periodo n = r₂) :
    r₁ = r₂ := by
  rw [← h₁, ← h₂]

theorem generate_deterministic_witness :
    generar_datos_energia Real.sin Real.pi "H75" "Semana" 24 =
      generar_datos_energia Real.sin Real.pi "H75" "Semana" 24 :=
  generate_deterministic "H75" "Semana" 24 _ _ rfl rfl

/-- C8: for every curve pair whose theoretical mean is nonzero, the
summary efficiency is `(1 - |mean_actual - mean_theoretical| /
mean_theoretical) * 100`; in particular means `200` and `190` give
`efficiency_pct = 95`. -/
theorem efficiency_formula :
    (∀ teorico real : List ℝ, mean teorico ≠ 0 →
      (summarize teorico real).efficiency_pct =
        (1 - |mean real - mean teorico| / mean teorico) * 100) ∧
    (∀ teorico real : List ℝ, mean teorico = 200 → mean real = 190 →
      (summarize teorico real).efficiency_pct = 95) := by
  constructor
  · intro teorico real _
    rfl
  · intro teorico real h1 h2
    simp only [summarize, h1, h2]
    rw [show (190 : ℝ) - 200 = -10 by norm_num, abs_neg,
      abs_of_nonneg (by norm_num : (0 : ℝ) ≤ 10)]
    norm_num

theorem efficiency_formula_witness :
    mean ([200] : List ℝ) ≠ 0 ∧ mean ([200] : List ℝ) = 200 ∧
    mean ([190] : List ℝ) = 190 ∧
    (summarize ([200] : List ℝ) ([190] : List ℝ)).efficiency_pct = 95 :=
  ⟨by norm_num [mean], by norm_num [mean], by norm_num [mean],
   efficiency_formula.2 [200] [190] (by norm_num [mean]) (by norm_num [mean])⟩

/-- C5 (actual code behaviour at the failing input): with
`numero_periodos = 0` the index array `np.arange(1, 1)` is empty, the
sinusoid computations succeed on empty arrays, and the boundary
assignment `frente_a_abt[0] = ...` fails with `IndexError` — not the
`InvalidArgumentError` the specification requires. -/
theorem zero_count_index_error :
    generar_datos_energia Real.sin Real.pi "H75" "Semana" 0 = .error .indexError := by
  simp [generar_datos_energia, parametros, tiempo]

theorem sin_term_bounds (b a s : ℝ) (ha : 0 ≤ a) (hs1 : -1 ≤ s) (hs2 : s ≤ 1) :
    b - a ≤ b + a * s ∧ b + a * s ≤ b + a := by
  constructor <;> nlinarith

theorem sin_term_bounds_neg (b a s : ℝ) (ha : 0 ≤ a) (hs1 : -1 ≤ s) (hs2 : s ≤ 1) :
    b - a ≤ b - a * s ∧ b - a * s ≤ b + a := by
  constructor <;> nlinarith

theorem params_cases {p : Params ℝ} {centro : String}
    (hc : parametros Real.pi centro = some p) :
    p = ⟨180, 35, 25, 0, Real.pi⟩ ∨
    p = ⟨220, 50, 40, Real.pi / 4, -(Real.pi / 4)⟩ ∨
    p = ⟨160, 30, 20, Real.pi / 2, -(Real.pi / 2)⟩ := by
  unfold parametros at hc
  split_ifs at hc
  · exact Or.inl (Option.some.inj hc).symm
  · exact Or.inr (Or.inl (Option.some.inj hc).symm)
  · exact Or.inr (Or.inr (Option.some.inj hc).symm)

/-- C9: for every known machine, every period with positive scale factor
and every `point_count ≥ 1`, all theoretical values lie within one scaled
theoretical amplitude of the scaled baseline, and all actual values
within one scaled actual amplitude. -/
theorem range_bound (centro periodo : String) (p : Params ℝ) (n : ℤ)
    (hc : parametros Real.pi centro = some p) (hn : 1 ≤ n)
    (hf : 0 < (factor_periodo periodo : ℝ)) :
    ∃ t teorico real,
      generar_datos_energia Real.sin Real.pi centro periodo n = .ok (t, teorico, real) ∧
      (∀ x ∈ teorico,
        p.base * factor_periodo periodo - p.amplitud1 * factor_periodo periodo ≤ x ∧
        x ≤ p.base * factor_periodo periodo + p.amplitud1 * factor_periodo periodo) ∧
      (∀ x ∈ real,
        p.base * factor_periodo periodo - p.amplitud2 * factor_periodo periodo ≤ x ∧
        x ≤ p.base * factor_periodo periodo + p.amplitud2 * factor_periodo periodo) := by
  have ha1 : 0 ≤ p.amplitud1 := by
    rcases params_cases hc with rfl | rfl | rfl <;> norm_num
  have ha2 : 0 ≤ p.amplitud2 := by
    rcases params_cases hc with rfl | rfl | rfl <;> norm_num
  refine ⟨_, _, _, generar_eq_ok Real.sin Real.pi periodo hc hn, ?_, ?_⟩
  · intro x hx
    rcases mem_setFirstLast hx with hx | rfl
    · rw [List.mem_map] at hx
      obtain ⟨t, -, rfl⟩ := hx
      exact sin_term_bounds _ _ _ (mul_nonneg ha1 hf.le)
        (Real.neg_one_le_sin _) (Real.sin_le_one _)
    · constructor
      · linarith [mul_nonneg ha1 hf.le]
      · linarith [mul_nonneg ha1 hf.le]
  · intro x hx
    rcases mem_setFirstLast hx with hx | rfl
    · rw [List.mem_map] at hx
      obtain ⟨t, -, rfl⟩ := hx
      exact sin_term_bounds_neg _ _ _ (mul_nonneg ha2 hf.le)
        (Real.neg_one_le_sin _) (Real.sin_le_one _)
    · constructor
      · linarith [mul_nonneg ha2 hf.le]
      · linarith [mul_nonneg ha2 hf.le]

theorem range_bound_witness :
    parametros Real.pi "H75" = some (⟨180, 35, 25, 0, Real.pi⟩ : Params ℝ) ∧
    (1 : ℤ) ≤ 24 ∧ (0 : ℝ) < factor_periodo "Semana" ∧
    (∃ t teorico real,
      generar_datos_energia Real.sin Real.pi "H75" "Semana" 24 = .ok (t, teorico, real) ∧
      (∀ x ∈ teorico,
        (180 : ℝ) * factor_periodo "Semana" - (35 : ℝ) * factor_periodo "Semana" ≤ x ∧
        x ≤ (180 : ℝ) * factor_periodo "Semana" + (35 : ℝ) * factor_periodo "Semana") ∧
      (∀ x ∈ real,
        (180 : ℝ) * factor_periodo "Semana" - (25 : ℝ) * factor_periodo "Semana" ≤ x ∧
        x ≤ (180 : ℝ) * factor_periodo "Semana" + (25 : ℝ) * factor_periodo "Semana")) :=
  ⟨by simp [parametros], by decide, by simp [factor_periodo],
   range_bound "H75" "Semana" ⟨180, 35, 25, 0, Real.pi⟩ 24 (by simp [parametros])
     (by decide) (by simp [factor_periodo])⟩

/-- C10: for every known machine and every period, generation with
`point_count = 1` or `point_count = 2` succeeds and every element of both
curves equals the scaled baseline, because the boundary overwrite covers
every position of a length-1 or length-2 array. -/
theorem degenerate_point_counts (centro periodo : String) (p : Params ℝ) (n : ℤ)
    (hc : parametros Real.pi centro = some p) (hn : n = 1 ∨ n = 2) :
    ∃ t teorico real,
      generar_datos_energia Real.sin Real.pi centro periodo n = .ok (t, teorico, real) ∧
      (∀ x ∈ teorico, x = p.base * factor_periodo periodo) ∧
      (∀ x ∈ real, x = p.base * factor_periodo periodo) := by
  rcases hn with rfl | rfl
  · have ht : tiempo 1 = [1] := rfl
    refine ⟨_, _, _, generar_eq_ok Real.sin Real.pi periodo hc (by norm_num), ?_, ?_⟩ <;>
    · intro x hx
      rw [ht] at hx
      simp [setFirstLast] at hx
      exact hx
  · have ht : tiempo 2 = [1, 2] := rfl
    refine ⟨_, _, _, generar_eq_ok Real.sin Real.pi periodo hc (by norm_num), ?_, ?_⟩ <;>
    · intro x hx
      rw [ht] at hx
      simp [setFirstLast] at hx
      exact hx

theorem degenerate_point_counts_witness :
    parametros Real.pi "H75" = some (⟨180, 35, 25, 0, Real.pi⟩ : Params ℝ) ∧
    ((2 : ℤ) = 1 ∨ (2 : ℤ) = 2) ∧
    (∃ t teorico real,
      generar_datos_energia Real.sin Real.pi "H75" "Semana" 2 = .ok (t, teorico, real) ∧
      (∀ x ∈ teorico, x = (180 : ℝ) * factor_periodo "Semana") ∧
      (∀ x ∈ real, x = (180 : ℝ) * factor_periodo "Semana")) :=
  ⟨by simp [parametros], by decide,
   degenerate_point_counts "H75" "Semana" ⟨180, 35, 25, 0, Real.pi⟩ 2 (by simp [parametros])
     (by decide)⟩

end Inicio
